import Mathlib

/-!
Verification of the ai-calling-agent webhook service (`src/main_llama.py`).

The service keeps a process-wide dictionary `conversation_sessions` mapping
Twilio call identifiers to conversation transcripts (lists of role-tagged
messages).  Four HTTP handlers act on it:

* `handle_voice_interaction` (lines 85-139): creates a session seeded with the
  system prompt on the first event for a call identifier and answers with a
  fixed greeting; on later events it either appends a user/assistant message
  pair (consulting the inference adapter) or answers with a fixed re-prompt.
* `generate_llama_response` (lines 142-161): one chat-completion request;
  returns the first choice's text stripped of surrounding whitespace, or a
  fixed fallback string on any exception.
* `handle_recording_status` (lines 164-188): deletes the session when the
  recording status is "completed", otherwise changes nothing; always
  acknowledges with `{"status": "received"}`.
* `make_call` (lines 62-82): validates the destination number, then asks the
  telephony provider to originate a call, converting any exception into a
  structured failure object.

The embedding below models the Python dict as an association list (Python
dicts preserve insertion order: a fresh key is appended at the end, an update
keeps the entry in place), and the two external SDK calls as oracle functions
returning `Except`, matching Python's raise/return behaviour.  Handler results
carry an explicit count of outbound requests so that "the adapter is not
invoked" is expressible.
-/

namespace AICallingAgent

/-- Message roles used in the transcripts (`"system"`, `"user"`, `"assistant"`). -/
inductive Role where
  | system
  | user
  | assistant
deriving DecidableEq, Repr

/-- One entry of a conversation transcript: `{"role": ..., "content": ...}`. -/
structure Message where
  role : Role
  content : String
deriving DecidableEq, Repr

/-- The `conversation_sessions` dictionary: call identifier to transcript.
Modelled as an insertion-ordered association list, like a Python dict. -/
abbrev Store := List (String × List Message)

/-- Dictionary membership / read: `conversation_sessions[call_sid]` when
present, `none` when `call_sid not in conversation_sessions`. -/
def lookupSession : Store → String → Option (List Message)
  | [], _ => none
  | (k, h) :: rest, call_sid =>
      if k = call_sid then some h else lookupSession rest call_sid

/-- Dictionary write `conversation_sessions[call_sid] = history`: replaces the
value in place when the key exists, appends a new entry at the end otherwise
(Python dict insertion-order semantics). -/
def setSession : Store → String → List Message → Store
  | [], call_sid, history => [(call_sid, history)]
  | (k, h) :: rest, call_sid, history =>
      if k = call_sid then (k, history) :: rest
      else (k, h) :: setSession rest call_sid history

/-- Dictionary delete `del conversation_sessions[call_sid]`, guarded in the
source by a membership test, hence a no-op when the key is absent. -/
def eraseSession : Store → String → Store
  | [], _ => []
  | (k, h) :: rest, call_sid =>
      if k = call_sid then eraseSession rest call_sid
      else (k, h) :: eraseSession rest call_sid

/-- Fixed greeting spoken on the first event of a call (line 102). -/
def GREETING : String := "Hello! Thank you for calling. How can I assist you today?"

/-- Fixed re-prompt spoken when no speech was recognized (line 117). -/
def REPROMPT : String := "I didn't catch that. Could you please repeat?"

/-- Fixed fallback reply returned when the inference request fails (line 161). -/
def FALLBACK_RESPONSE : String :=
  "I apologize, but I'm having trouble processing your request right now. Please try again."

/-- Python's `str.strip()` with no argument: remove leading and trailing
whitespace.  Defined over the character list so that it evaluates by kernel
reduction on concrete strings. -/
def pythonStrip (s : String) : String :=
  ⟨((s.data.dropWhile Char.isWhitespace).reverse.dropWhile Char.isWhitespace).reverse⟩

/-- Oracle for the hosted chat-completion service: given the message list, it
either returns the first choice's (untrimmed) text or raises an exception
(`Except.error`), covering network, auth and malformed-response failures. -/
abbrev ChatApi := List Message → Except String String

/-- Embedding of `generate_llama_response` (lines 142-161): reads the session from the
store (a missing key raises `KeyError`, also caught), performs one
chat-completion request, and returns the first choice's text trimmed of
surrounding whitespace; any exception is converted to `FALLBACK_RESPONSE`. -/
def generate_llama_response (api : ChatApi) (sessions : Store) (call_sid : String) : String :=
  match lookupSession sessions call_sid with
  | none => FALLBACK_RESPONSE
  | some history =>
      match api history with
      | Except.ok content => pythonStrip content
      | Except.error _ => FALLBACK_RESPONSE

/-- Result of one `/voice-handler` invocation: the updated store, the
utterance spoken inside the TwiML `<Gather>` (line 133), and how many
chat-completion requests the invocation issued. -/
structure VoiceOutcome where
  sessions : Store
  ai_response : String
  inference_calls : Nat
deriving DecidableEq, Repr

/-- Embedding of `handle_voice_interaction` (lines 85-139).  `speech_field` is the raw
`SpeechResult` form field; the source defaults it to `""` when absent
(`form_data.get("SpeechResult", "")`).  A call identifier not yet in the
store gets a fresh session holding only the system message and the greeting
is spoken.  Otherwise, a non-empty speech string appends a user message,
invokes the inference adapter on the updated store, appends the reply as an
assistant message and speaks the reply; an empty speech string leaves the
store untouched and speaks the re-prompt. -/
def handle_voice_interaction (system_message : String) (api : ChatApi)
    (sessions : Store) (call_sid : String) (speech_field : Option String) : VoiceOutcome :=
  let speech_result := speech_field.getD ""
  match lookupSession sessions call_sid with
  | none =>
      { sessions := setSession sessions call_sid [⟨Role.system, system_message⟩]
        ai_response := GREETING
        inference_calls := 0 }
  | some history =>
      if speech_result ≠ "" then
        let sessions1 := setSession sessions call_sid (history ++ [⟨Role.user, speech_result⟩])
        let ai := generate_llama_response api sessions1 call_sid
        { sessions := setSession sessions1 call_sid
            (history ++ [⟨Role.user, speech_result⟩] ++ [⟨Role.assistant, ai⟩])
          ai_response := ai
          inference_calls := 1 }
      else
        { sessions := sessions
          ai_response := REPROMPT
          inference_calls := 0 }

/-- The JSON acknowledgement returned by `/recording-status` (line 188). -/
structure RecordingAck where
  status : String
deriving DecidableEq, Repr

/-- Embedding of `handle_recording_status` (lines 164-188): when the `RecordingStatus`
form field equals `"completed"` the session for `CallSid` is deleted (the
source guards the `del` with a membership test, so deletion of an absent key
is a no-op); any other status leaves the store unchanged.  The handler always
returns `{"status": "received"}`. -/
def handle_recording_status (sessions : Store) (recording_status : String)
    (call_sid : String) : Store × RecordingAck :=
  if recording_status = "completed" then
    (eraseSession sessions call_sid, ⟨"received"⟩)
  else
    (sessions, ⟨"received"⟩)

/-- The JSON object returned by `/make-call`; each branch of the source
returns a dict with a different set of keys, so every field is optional. -/
structure MakeCallResponse where
  call_sid : Option String
  error : Option String
  status : Option String
deriving DecidableEq, Repr

/-- Oracle for `client.calls.create`: returns the new call SID or raises. -/
abbrev TwilioApi := String → Except String String

/-- Result of one `/make-call` invocation: the JSON response together with the
number of requests issued to the telephony provider. -/
structure MakeCallOutcome where
  response : MakeCallResponse
  provider_requests : Nat
deriving DecidableEq, Repr

/-- Embedding of `make_call` (lines 62-82): an empty destination number short-circuits to
`{"error": "Phone number is required"}` (no `status` key, no provider
request); otherwise one `calls.create` request is made and its outcome is
converted to `{"call_sid": ..., "status": "success"}` or
`{"error": str(e), "status": "failed"}`. -/
def make_call (twilio : TwilioApi) (to_phone_number : String) : MakeCallOutcome :=
  if to_phone_number = "" then
    { response := ⟨none, some "Phone number is required", none⟩
      provider_requests := 0 }
  else
    match twilio to_phone_number with
    | Except.ok sid =>
        { response := ⟨some sid, none, some "success"⟩
          provider_requests := 1 }
    | Except.error e =>
        { response := ⟨none, some e, some "failed"⟩
          provider_requests := 1 }

/-! ### Store lemmas -/

theorem lookupSession_setSession_self (s : Store) (k : String) (v : List Message) :
    lookupSession (setSession s k v) k = some v := by
  induction s with
  | nil => simp [setSession, lookupSession]
  | cons e rest ih =>
      obtain ⟨ke, he⟩ := e
      by_cases hk : ke = k
      · simp [setSession, lookupSession, hk]
      · simp [setSession, lookupSession, hk, ih]

theorem lookupSession_setSession_ne (s : Store) (k k' : String) (v : List Message)
    (hne : k' ≠ k) : lookupSession (setSession s k v) k' = lookupSession s k' := by
  induction s with
  | nil => simp [setSession, lookupSession, Ne.symm hne]
  | cons e rest ih =>
      obtain ⟨ke, he⟩ := e
      by_cases hk : ke = k
      · subst hk
        simp [setSession, lookupSession, Ne.symm hne]
      · simp [setSession, lookupSession, hk, ih]

theorem setSession_of_lookup_none (s : Store) (k : String) (v : List Message)
    (h : lookupSession s k = none) : setSession s k v = s ++ [(k, v)] := by
  induction s with
  | nil => simp [setSession]
  | cons e rest ih =>
      obtain ⟨ke, he⟩ := e
      by_cases hk : ke = k
      · simp [lookupSession, hk] at h
      · simp [lookupSession, hk] at h
        simp [setSession, hk, ih h]

theorem lookupSession_eraseSession_self (s : Store) (k : String) :
    lookupSession (eraseSession s k) k = none := by
  induction s with
  | nil => rfl
  | cons e rest ih =>
      obtain ⟨ke, he⟩ := e
      by_cases hk : ke = k
      · simpa [eraseSession, hk] using ih
      · simpa [eraseSession, hk, lookupSession] using ih

theorem lookupSession_eraseSession_ne (s : Store) (k k' : String) (hne : k' ≠ k) :
    lookupSession (eraseSession s k) k' = lookupSession s k' := by
  induction s with
  | nil => rfl
  | cons e rest ih =>
      obtain ⟨ke, he⟩ := e
      by_cases hk : ke = k
      · subst hk
        simpa [eraseSession, lookupSession, Ne.symm hne] using ih
      · by_cases hk' : ke = k'
        · subst hk'
          simp [eraseSession, lookupSession, hne]
        · simpa [eraseSession, hk, lookupSession, hk'] using ih

theorem eraseSession_idem (s : Store) (k : String) :
    eraseSession (eraseSession s k) k = eraseSession s k := by
  induction s with
  | nil => rfl
  | cons e rest ih =>
      obtain ⟨ke, he⟩ := e
      by_cases hk : ke = k
      · simpa [eraseSession, hk] using ih
      · simp [eraseSession, hk, ih]

theorem setSession_setSession (s : Store) (k : String) (v v' : List Message) :
    setSession (setSession s k v) k v' = setSession s k v' := by
  induction s with
  | nil => simp [setSession]
  | cons e rest ih =>
      obtain ⟨ke, he⟩ := e
      by_cases hk : ke = k
      · simp [setSession, hk]
      · simp [setSession, hk, ih]

/-! ### Branch characterizations of the voice handler -/

theorem handle_voice_eq_new (system_message : String) (api : ChatApi) (sessions : Store)
    (call_sid : String) (speech_field : Option String)
    (h : lookupSession sessions call_sid = none) :
    handle_voice_interaction system_message api sessions call_sid speech_field
      = { sessions := setSession sessions call_sid [⟨Role.system, system_message⟩]
          ai_response := GREETING
          inference_calls := 0 } := by
  simp [handle_voice_interaction, h]

theorem handle_voice_eq_speech (system_message : String) (api : ChatApi) (sessions : Store)
    (call_sid : String) (speech_field : Option String) (history : List Message)
    (h : lookupSession sessions call_sid = some history)
    (hne : speech_field.getD "" ≠ "") :
    handle_voice_interaction system_message api sessions call_sid speech_field
      = { sessions := setSession sessions call_sid
            (history ++ [⟨Role.user, speech_field.getD ""⟩,
              ⟨Role.assistant,
                generate_llama_response api
                  (setSession sessions call_sid
                    (history ++ [⟨Role.user, speech_field.getD ""⟩])) call_sid⟩])
          ai_response := generate_llama_response api
            (setSession sessions call_sid
              (history ++ [⟨Role.user, speech_field.getD ""⟩])) call_sid
          inference_calls := 1 } := by
  simp only [handle_voice_interaction, h, ne_eq, hne, not_false_iff, if_pos, if_true]
  rw [setSession_setSession]
  simp

theorem handle_voice_eq_empty (system_message : String) (api : ChatApi) (sessions : Store)
    (call_sid : String) (speech_field : Option String) (history : List Message)
    (h : lookupSession sessions call_sid = some history)
    (he : speech_field.getD "" = "") :
    handle_voice_interaction system_message api sessions call_sid speech_field
      = { sessions := sessions
          ai_response := REPROMPT
          inference_calls := 0 } := by
  simp [handle_voice_interaction, h, he]

/-! ### Claim theorems -/

/-- C1: for a call identifier absent from the session store, one voice-handler
invocation appends exactly one new session to the store, that session's
transcript is exactly one system message holding the loaded prompt, the spoken
response is the fixed greeting, and the inference adapter is not invoked —
whatever the speech field holds (absent, empty, or non-empty). -/
theorem voice_first_event_creates_session (system_message : String) (api : ChatApi)
    (sessions : Store) (call_sid : String) (speech_field : Option String)
    (hnew : lookupSession sessions call_sid = none) :
    (handle_voice_interaction system_message api sessions call_sid speech_field).sessions
        = sessions ++ [(call_sid, [⟨Role.system, system_message⟩])]
    ∧ lookupSession
        (handle_voice_interaction system_message api sessions call_sid speech_field).sessions
        call_sid = some [⟨Role.system, system_message⟩]
    ∧ (handle_voice_interaction system_message api sessions call_sid speech_field).ai_response
        = GREETING
    ∧ (handle_voice_interaction system_message api sessions call_sid speech_field).inference_calls
        = 0 := by
  simp only [handle_voice_interaction, hnew]
  refine ⟨setSession_of_lookup_none _ _ _ hnew, lookupSession_setSession_self _ _ _, ?_, ?_⟩ <;>
    trivial

/-- Witness for C1 at a concrete input: empty store, identifier `CA123`,
non-empty speech present. -/
theorem voice_first_event_creates_session_witness :
    (handle_voice_interaction "S" (fun _ => Except.ok "x") [] "CA123" (some "hello")).sessions
        = [("CA123", [⟨Role.system, "S"⟩])]
    ∧ (handle_voice_interaction "S" (fun _ => Except.ok "x") [] "CA123"
        (some "hello")).ai_response = GREETING :=
  ⟨(voice_first_event_creates_session "S" (fun _ => Except.ok "x") [] "CA123"
      (some "hello") rfl).1,
   (voice_first_event_creates_session "S" (fun _ => Except.ok "x") [] "CA123"
      (some "hello") rfl).2.2.1⟩

/-- C2: for an existing session and a non-empty speech string, the invocation
appends exactly two messages to that session's transcript — a user message
holding the speech, then an assistant message holding the inference adapter's
reply (the adapter is consulted once, on the store already carrying the user
message) — and the spoken response is that reply. -/
theorem voice_turn_with_speech_appends_user_then_assistant (system_message : String)
    (api : ChatApi) (sessions : Store) (call_sid speech : String) (history : List Message)
    (hsess : lookupSession sessions call_sid = some history) (hne : speech ≠ "") :
    lookupSession
        (handle_voice_interaction system_message api sessions call_sid (some speech)).sessions
        call_sid
      = some (history ++ [⟨Role.user, speech⟩,
          ⟨Role.assistant,
            generate_llama_response api
              (setSession sessions call_sid (history ++ [⟨Role.user, speech⟩])) call_sid⟩])
    ∧ (handle_voice_interaction system_message api sessions call_sid (some speech)).ai_response
      = generate_llama_response api
          (setSession sessions call_sid (history ++ [⟨Role.user, speech⟩])) call_sid
    ∧ (handle_voice_interaction system_message api sessions call_sid
        (some speech)).inference_calls = 1 := by
  simp only [handle_voice_interaction, hsess, Option.getD_some, ne_eq, hne,
    not_false_iff, if_true, if_pos]
  refine ⟨?_, ?_, ?_⟩
  · rw [lookupSession_setSession_self]
    simp
  · trivial
  · trivial

/-- Witness for C2 at a concrete input: a one-session store and speech
`"I need help"`, with a succeeding inference oracle. -/
theorem voice_turn_with_speech_appends_user_then_assistant_witness :
    (handle_voice_interaction "S" (fun _ => Except.ok " sure ")
        [("CA123", [⟨Role.system, "S"⟩])] "CA123" (some "I need help")).ai_response
      = "sure" := by
  have h := (voice_turn_with_speech_appends_user_then_assistant "S"
    (fun _ => Except.ok " sure ") [("CA123", [⟨Role.system, "S"⟩])] "CA123" "I need help"
    [⟨Role.system, "S"⟩] rfl (by decide)).2.1
  rw [h]
  decide

/-- C3: for an existing session and an empty or absent speech field, the
invocation leaves the whole store (hence that session's transcript) unchanged,
does not invoke the inference adapter, and speaks the fixed re-prompt. -/
theorem voice_turn_without_speech_is_noop (system_message : String) (api : ChatApi)
    (sessions : Store) (call_sid : String) (speech_field : Option String)
    (history : List Message)
    (hsess : lookupSession sessions call_sid = some history)
    (hempty : speech_field.getD "" = "") :
    (handle_voice_interaction system_message api sessions call_sid speech_field).sessions
        = sessions
    ∧ (handle_voice_interaction system_message api sessions call_sid speech_field).ai_response
        = REPROMPT
    ∧ (handle_voice_interaction system_message api sessions call_sid
        speech_field).inference_calls = 0 := by
  simp only [handle_voice_interaction, hsess, hempty]
  simp

/-- Witness for C3 at a concrete input: a one-session store with the speech
field absent. -/
theorem voice_turn_without_speech_is_noop_witness :
    (handle_voice_interaction "S" (fun _ => Except.ok "x")
        [("CA123", [⟨Role.system, "S"⟩])] "CA123" none).sessions
      = [("CA123", [⟨Role.system, "S"⟩])]
    ∧ (handle_voice_interaction "S" (fun _ => Except.ok "x")
        [("CA123", [⟨Role.system, "S"⟩])] "CA123" none).ai_response = REPROMPT :=
  ⟨(voice_turn_without_speech_is_noop "S" (fun _ => Except.ok "x")
      [("CA123", [⟨Role.system, "S"⟩])] "CA123" none [⟨Role.system, "S"⟩] rfl rfl).1,
   (voice_turn_without_speech_is_noop "S" (fun _ => Except.ok "x")
      [("CA123", [⟨Role.system, "S"⟩])] "CA123" none [⟨Role.system, "S"⟩] rfl rfl).2.1⟩

/-- C4: a recording-status event with status `"completed"` removes the session
(the resulting store is exactly the store with that key erased, so the key no
longer resolves, and doing it twice equals doing it once); any other status
leaves the store unchanged; every invocation returns `{"status": "received"}`;
and after a `"completed"` deletion a voice-handler call with the same
identifier takes the new-session branch: it answers with the greeting and
re-creates the session seeded with the system message. -/
theorem recording_status_contract (sessions : Store) (recording_status call_sid : String) :
    ((recording_status = "completed" →
        (handle_recording_status sessions recording_status call_sid).1
            = eraseSession sessions call_sid
        ∧ lookupSession (handle_recording_status sessions recording_status call_sid).1 call_sid
            = none
        ∧ (handle_recording_status (handle_recording_status sessions recording_status call_sid).1
            recording_status call_sid).1
            = (handle_recording_status sessions recording_status call_sid).1)
      ∧ (recording_status ≠ "completed" →
          (handle_recording_status sessions recording_status call_sid).1 = sessions)
      ∧ (handle_recording_status sessions recording_status call_sid).2 = ⟨"received"⟩)
    ∧ ∀ system_message api speech_field,
        recording_status = "completed" →
        (handle_voice_interaction system_message api
            (handle_recording_status sessions recording_status call_sid).1 call_sid
            speech_field).ai_response = GREETING
        ∧ lookupSession
            (handle_voice_interaction system_message api
              (handle_recording_status sessions recording_status call_sid).1 call_sid
              speech_field).sessions call_sid
          = some [⟨Role.system, system_message⟩] := by
  by_cases hc : recording_status = "completed"
  · subst hc
    refine ⟨⟨fun _ => ⟨rfl, lookupSession_eraseSession_self _ _, ?_⟩, fun h => absurd rfl h,
      rfl⟩, ?_⟩
    · simp only [handle_recording_status, if_pos rfl]
      exact eraseSession_idem _ _
    · intro system_message api speech_field _
      have hnone : lookupSession
          (handle_recording_status sessions "completed" call_sid).1 call_sid = none := by
        simp only [handle_recording_status, if_pos rfl]
        exact lookupSession_eraseSession_self _ _
      rw [handle_voice_eq_new system_message api _ call_sid speech_field hnone]
      exact ⟨rfl, lookupSession_setSession_self _ _ _⟩
  · exact ⟨⟨fun h => absurd h hc, fun _ => by simp [handle_recording_status, hc],
      by simp [handle_recording_status, hc]⟩,
      fun _ _ _ h => absurd h hc⟩

/-- Witness for C4 at a concrete input: one-session store, status
`"completed"`. -/
theorem recording_status_contract_witness :
    (handle_recording_status [("CA1", [⟨Role.system, "S"⟩])] "completed" "CA1").1 = []
    ∧ (handle_voice_interaction "S" (fun _ => Except.ok "x")
        (handle_recording_status [("CA1", [⟨Role.system, "S"⟩])] "completed" "CA1").1
        "CA1" none).ai_response = GREETING := by
  have h := recording_status_contract [("CA1", [⟨Role.system, "S"⟩])] "completed" "CA1"
  exact ⟨by rw [(h.1.1 rfl).1]; rfl, (h.2 "S" (fun _ => Except.ok "x") none rfl).1⟩

/-- C5: the inference adapter returns the first choice's text stripped of
surrounding whitespace when the chat-completion request succeeds, and the
fixed apologetic fallback string on any failure; being a total function of
the oracle's outcome, it never propagates the failure to its caller. -/
theorem generate_llama_response_contract (api : ChatApi) (sessions : Store)
    (call_sid : String) (history : List Message)
    (hsess : lookupSession sessions call_sid = some history) :
    (∀ content, api history = Except.ok content →
        generate_llama_response api sessions call_sid = pythonStrip content)
    ∧ (∀ e, api history = Except.error e →
        generate_llama_response api sessions call_sid = FALLBACK_RESPONSE) := by
  constructor <;> intro x hx <;> simp [generate_llama_response, hsess, hx]

/-- Witness for C5 at a concrete input: an oracle that succeeds with text
surrounded by whitespace. -/
theorem generate_llama_response_contract_witness :
    generate_llama_response (fun _ => Except.ok "  hi there  ")
      [("CA1", [⟨Role.system, "S"⟩])] "CA1" = "hi there" := by
  have h := (generate_llama_response_contract (fun _ => Except.ok "  hi there  ")
    [("CA1", [⟨Role.system, "S"⟩])] "CA1" [⟨Role.system, "S"⟩] rfl).1 "  hi there  " rfl
  rw [h]
  decide

/-- C9: when the inference request fails during an active-session turn with
non-empty speech, the handler still appends exactly two messages — the user
message stays in the transcript and the fixed apologetic fallback string is
appended as the assistant message — and the fallback is spoken, exactly as if
the model had replied with the fallback text. -/
theorem voice_turn_inference_failure_records_fallback (system_message : String)
    (api : ChatApi) (sessions : Store) (call_sid speech : String)
    (history : List Message) (e : String)
    (hsess : lookupSession sessions call_sid = some history) (hne : speech ≠ "")
    (hfail : api (history ++ [⟨Role.user, speech⟩]) = Except.error e) :
    lookupSession
        (handle_voice_interaction system_message api sessions call_sid (some speech)).sessions
        call_sid
      = some (history ++ [⟨Role.user, speech⟩, ⟨Role.assistant, FALLBACK_RESPONSE⟩])
    ∧ (handle_voice_interaction system_message api sessions call_sid (some speech)).ai_response
      = FALLBACK_RESPONSE := by
  have hgen : generate_llama_response api
      (setSession sessions call_sid (history ++ [⟨Role.user, speech⟩])) call_sid
      = FALLBACK_RESPONSE := by
    simp [generate_llama_response, lookupSession_setSession_self, hfail]
  rw [handle_voice_eq_speech system_message api sessions call_sid (some speech) history hsess
    (by simpa using hne)]
  simp only [Option.getD_some, hgen]
  exact ⟨lookupSession_setSession_self _ _ _, trivial⟩

/-- Witness for C9 at a concrete input: a failing inference oracle. -/
theorem voice_turn_inference_failure_records_fallback_witness :
    lookupSession
        (handle_voice_interaction "S" (fun _ => Except.error "boom")
          [("CA1", [⟨Role.system, "S"⟩])] "CA1" (some "help")).sessions "CA1"
      = some ([⟨Role.system, "S"⟩]
          ++ [⟨Role.user, "help"⟩, ⟨Role.assistant, FALLBACK_RESPONSE⟩])
    ∧ (handle_voice_interaction "S" (fun _ => Except.error "boom")
        [("CA1", [⟨Role.system, "S"⟩])] "CA1" (some "help")).ai_response
      = FALLBACK_RESPONSE :=
  voice_turn_inference_failure_records_fallback "S" (fun _ => Except.error "boom")
    [("CA1", [⟨Role.system, "S"⟩])] "CA1" "help" [⟨Role.system, "S"⟩] "boom"
    rfl (by decide) rfl

/-- C10: one handler invocation touches at most the store entry keyed by the
request's own call identifier — for every other identifier, both its presence
in the store and its transcript are unchanged, for the voice handler and for
the recording-status handler alike. -/
theorem handlers_preserve_other_sessions (system_message : String) (api : ChatApi)
    (sessions : Store) (call_sid : String) (speech_field : Option String)
    (recording_status other : String) (hother : other ≠ call_sid) :
    lookupSession
        (handle_voice_interaction system_message api sessions call_sid speech_field).sessions
        other = lookupSession sessions other
    ∧ lookupSession (handle_recording_status sessions recording_status call_sid).1 other
        = lookupSession sessions other := by
  constructor
  · rcases hl : lookupSession sessions call_sid with _ | history
    · rw [handle_voice_eq_new _ _ _ _ _ hl]
      exact lookupSession_setSession_ne _ _ _ _ hother
    · by_cases hs : speech_field.getD "" = ""
      · rw [handle_voice_eq_empty _ _ _ _ _ _ hl hs]
      · rw [handle_voice_eq_speech _ _ _ _ _ _ hl hs]
        exact lookupSession_setSession_ne _ _ _ _ hother
  · by_cases hc : recording_status = "completed"
    · simp only [handle_recording_status, if_pos hc]
      exact lookupSession_eraseSession_ne _ _ _ hother
    · simp [handle_recording_status, hc]

/-- Witness for C10 at a concrete input: a two-session store; the handlers run
against `CA1` and the entry for `CB2` is untouched. -/
theorem handlers_preserve_other_sessions_witness :
    lookupSession
        (handle_voice_interaction "S" (fun _ => Except.ok "x")
          [("CA1", [⟨Role.system, "S"⟩]), ("CB2", [⟨Role.system, "S"⟩])]
          "CA1" (some "hi")).sessions "CB2"
      = lookupSession [("CA1", [⟨Role.system, "S"⟩]), ("CB2", [⟨Role.system, "S"⟩])] "CB2"
    ∧ lookupSession
        (handle_recording_status
          [("CA1", [⟨Role.system, "S"⟩]), ("CB2", [⟨Role.system, "S"⟩])]
          "completed" "CA1").1 "CB2"
      = lookupSession [("CA1", [⟨Role.system, "S"⟩]), ("CB2", [⟨Role.system, "S"⟩])] "CB2" :=
  handlers_preserve_other_sessions "S" (fun _ => Except.ok "x")
    [("CA1", [⟨Role.system, "S"⟩]), ("CB2", [⟨Role.system, "S"⟩])]
    "CA1" (some "hi") "completed" "CB2" (by decide)

/-- A well-formed transcript: it begins with exactly one system message
holding the loaded prompt, and no later entry carries the system role. -/
def TranscriptWF (system_message : String) (history : List Message) : Prop :=
  ∃ rest, history = ⟨Role.system, system_message⟩ :: rest
    ∧ ∀ m ∈ rest, m.role ≠ Role.system

/-- The store invariant of C6: every session present in the store has a
well-formed transcript. -/
def StoreInv (system_message : String) (sessions : Store) : Prop :=
  ∀ call_sid history, lookupSession sessions call_sid = some history →
    TranscriptWF system_message history

theorem TranscriptWF.append (system_message : String) (history extra : List Message)
    (hwf : TranscriptWF system_message history)
    (hx : ∀ m ∈ extra, m.role ≠ Role.system) :
    TranscriptWF system_message (history ++ extra) := by
  obtain ⟨rest, hrest, hnosys⟩ := hwf
  subst hrest
  refine ⟨rest ++ extra, by simp, ?_⟩
  intro m hm
  rcases List.mem_append.mp hm with hm1 | hm2
  · exact hnosys m hm1
  · exact hx m hm2

/-- C6: both handlers preserve the invariant that every stored transcript
begins with exactly one system message holding the loaded prompt, and every
surviving transcript is only ever extended at its end (each operation —
session creation, a turn with or without speech, a recording-status event —
either leaves a transcript unchanged or appends to it). -/
theorem session_invariant_preserved (system_message : String) (api : ChatApi)
    (sessions : Store) (call_sid : String) (speech_field : Option String)
    (recording_status rec_call_sid : String)
    (hinv : StoreInv system_message sessions) :
    (StoreInv system_message
        (handle_voice_interaction system_message api sessions call_sid speech_field).sessions
      ∧ ∀ k h h', lookupSession sessions k = some h →
          lookupSession
            (handle_voice_interaction system_message api sessions call_sid
              speech_field).sessions k = some h' →
          ∃ t, h' = h ++ t)
    ∧ (StoreInv system_message
        (handle_recording_status sessions recording_status rec_call_sid).1
      ∧ ∀ k h h', lookupSession sessions k = some h →
          lookupSession (handle_recording_status sessions recording_status rec_call_sid).1 k
            = some h' →
          ∃ t, h' = h ++ t) := by
  constructor
  · rcases hl : lookupSession sessions call_sid with _ | history
    · rw [handle_voice_eq_new _ _ _ _ _ hl]
      constructor
      · intro k h hk
        by_cases hksid : k = call_sid
        · subst hksid
          rw [lookupSession_setSession_self] at hk
          cases hk
          exact ⟨[], rfl, by simp⟩
        · rw [lookupSession_setSession_ne _ _ _ _ hksid] at hk
          exact hinv _ _ hk
      · intro k h h' hk hk'
        by_cases hksid : k = call_sid
        · subst hksid
          rw [hl] at hk
          cases hk
        · rw [lookupSession_setSession_ne _ _ _ _ hksid, hk] at hk'
          cases hk'
          exact ⟨[], by simp⟩
    · by_cases hs : speech_field.getD "" = ""
      · rw [handle_voice_eq_empty _ _ _ _ _ _ hl hs]
        exact ⟨hinv, fun k h h' hk hk' => by rw [hk] at hk'; cases hk'; exact ⟨[], by simp⟩⟩
      · rw [handle_voice_eq_speech _ _ _ _ _ _ hl hs]
        constructor
        · intro k h hk
          by_cases hksid : k = call_sid
          · subst hksid
            rw [lookupSession_setSession_self] at hk
            cases hk
            refine TranscriptWF.append _ _ _ (hinv _ _ hl) ?_
            intro m hm
            simp only [List.mem_cons, List.not_mem_nil, or_false] at hm
            rcases hm with rfl | rfl <;> simp
          · rw [lookupSession_setSession_ne _ _ _ _ hksid] at hk
            exact hinv _ _ hk
        · intro k h h' hk hk'
          by_cases hksid : k = call_sid
          · subst hksid
            rw [hl] at hk
            cases hk
            rw [lookupSession_setSession_self] at hk'
            cases hk'
            exact ⟨_, rfl⟩
          · rw [lookupSession_setSession_ne _ _ _ _ hksid, hk] at hk'
            cases hk'
            exact ⟨[], by simp⟩
  · by_cases hc : recording_status = "completed"
    · simp only [handle_recording_status, if_pos hc]
      constructor
      · intro k h hk
        by_cases hksid : k = rec_call_sid
        · subst hksid
          rw [lookupSession_eraseSession_self] at hk
          cases hk
        · rw [lookupSession_eraseSession_ne _ _ _ hksid] at hk
          exact hinv _ _ hk
      · intro k h h' hk hk'
        by_cases hksid : k = rec_call_sid
        · subst hksid
          rw [lookupSession_eraseSession_self] at hk'
          cases hk'
        · rw [lookupSession_eraseSession_ne _ _ _ hksid, hk] at hk'
          cases hk'
          exact ⟨[], by simp⟩
    · simp only [handle_recording_status, if_neg hc]
      exact ⟨hinv, fun k h h' hk hk' => by rw [hk] at hk'; cases hk'; exact ⟨[], by simp⟩⟩

/-- Witness for C6 at a concrete input: a store satisfying the invariant, a
speech turn with a failing oracle, and a completed-recording event. -/
theorem session_invariant_preserved_witness :
    StoreInv "S" (handle_voice_interaction "S" (fun _ => Except.error "boom")
      [("CA1", [⟨Role.system, "S"⟩])] "CA1" (some "hi")).sessions := by
  have hinv0 : StoreInv "S" [("CA1", [⟨Role.system, "S"⟩])] := by
    intro k h hk
    simp only [lookupSession] at hk
    split at hk
    · cases hk
      exact ⟨[], rfl, by simp⟩
    · simp at hk
  exact (session_invariant_preserved "S" (fun _ => Except.error "boom")
    [("CA1", [⟨Role.system, "S"⟩])] "CA1" (some "hi") "completed" "CA1" hinv0).1.1

/-- The response shape the spec asserts for `/make-call`: either a call SID
with status `"success"`, or an error description with status `"failed"`. -/
def makeCallClaimedShape (r : MakeCallResponse) : Prop :=
  (r.call_sid.isSome ∧ r.status = some "success")
  ∨ (r.error.isSome ∧ r.status = some "failed")

instance (r : MakeCallResponse) : Decidable (makeCallClaimedShape r) := by
  unfold makeCallClaimedShape
  infer_instance

/-- C7 counterexample: for the empty destination number the handler returns
`{"error": "Phone number is required"}` with no `status` key at all, so the
response is neither a success object nor an error object carrying status
`"failed"`, contradicting the claim's "any failure, including an empty
destination number" clause. -/
theorem make_call_empty_number_lacks_failed_status :
    ¬ makeCallClaimedShape (make_call (fun _ => Except.ok "CA1") "").response := by
  decide

/-- C7 (amended): an empty destination number yields the bare
`{"error": "Phone number is required"}` object (no `status` key) without any
provider request; for every non-empty number the handler issues exactly one
provider request and returns either `{call_sid, status:"success"}` or
`{error, status:"failed"}`; the handler is a total function, so no failure
escapes it. -/
theorem make_call_response_shape (twilio : TwilioApi) (to_phone_number : String) :
    (to_phone_number = "" →
        make_call twilio to_phone_number
          = ⟨⟨none, some "Phone number is required", none⟩, 0⟩)
    ∧ (to_phone_number ≠ "" →
        makeCallClaimedShape (make_call twilio to_phone_number).response
        ∧ (make_call twilio to_phone_number).provider_requests = 1) := by
  constructor
  · intro h
    simp [make_call, h]
  · intro h
    simp only [make_call, if_neg h]
    cases htw : twilio to_phone_number <;> simp [makeCallClaimedShape]

/-- Witness for C7 (amended) at concrete inputs: the empty number with a
succeeding provider, and a non-empty number with a failing provider. -/
theorem make_call_response_shape_witness :
    make_call (fun _ => Except.ok "CA9") ""
      = ⟨⟨none, some "Phone number is required", none⟩, 0⟩
    ∧ makeCallClaimedShape
        (make_call (fun _ => Except.error "no network") "+15551234567").response :=
  ⟨(make_call_response_shape (fun _ => Except.ok "CA9") "").1 rfl,
   ((make_call_response_shape (fun _ => Except.error "no network") "+15551234567").2
      (by decide)).1⟩

/-- C8: a `/make-call` request with the empty string as destination number
returns `{"error": "Phone number is required"}` (and nothing else) and issues
no request to the telephony provider. -/
theorem make_call_empty_number_short_circuits (twilio : TwilioApi) :
    (make_call twilio "").response = ⟨none, some "Phone number is required", none⟩
    ∧ (make_call twilio "").provider_requests = 0 := by
  simp [make_call]

end AICallingAgent
